import Mathlib

/-!
Shallow embedding of the booking/payment workflow of `alx_travel_app`
(`listings/views.py` and `listings/urls.py`): the domain records, the
shape of a decoded Chapa gateway response, and the view actions as pure
transition functions.  The gateway HTTP call itself is external, so each
action takes the outcome of that call as a parameter.
-/

/-- A Booking row, restricted to the fields the views read or write.
`status` ranges over `pending`, `confirmed`, `cancelled`. -/
structure Booking where
  id : Nat
  userEmail : String
  userFirstName : String
  userLastName : String
  listingTitle : String
  checkInDate : String
  checkOutDate : String
  total_price : Int
  status : String
  deriving Repr, DecidableEq

/-- A Payment row.  `transaction_id` and `payment_url` are absent until a
successful initiate call stores them; Python reads them with a truth
test, which treats both `None` and the empty string as missing.
Monetary amounts are embedded as integers (minor units). -/
structure Payment where
  id : Nat
  bookingId : Nat
  amount : Int
  currency : String
  reference : Nat
  transaction_id : Option String
  payment_url : Option String
  status : String
  deriving Repr, DecidableEq

/-- The `data` object of a Chapa response body; both fields are read with
`.get(...)`, so each may be absent. -/
structure ChapaData where
  transaction_id : Option String
  checkout_url : Option String
  deriving Repr, DecidableEq

/-- A decoded Chapa JSON body: the top-level `status` field (read with
`.get`, so possibly absent) and the `data` object (read with an indexed
access in the initiate success branch, raising `KeyError` when absent). -/
structure ChapaBody where
  status : Option String
  data : Option ChapaData
  deriving Repr, DecidableEq

/-- Outcome of the HTTP exchange with the gateway: a decoded response
together with its HTTP status code, or a transport-level failure
(`requests.exceptions.RequestException`). -/
inductive GatewayResult where
  | ok (code : Nat) (body : ChapaBody)
  | transportError (msg : String)
  deriving Repr, DecidableEq

/-- The keyword arguments of one `send_booking_confirmation_email.delay`
enqueue. -/
structure EmailJob where
  booking_id : Nat
  user_email : String
  listing_title : String
  deriving Repr, DecidableEq

/-- Python truth test `not payment.transaction_id`: true when the stored
value is `None` or the empty string. -/
def isBlank : Option String → Bool
  | none => true
  | some s => s == ""

/-- HTTP result of `PaymentViewSet.verify_payment`. -/
inductive VerifyResult where
  | success
  | noTransactionId
  | verificationFailed (details : ChapaBody)
  | unavailable (details : String)
  deriving Repr, DecidableEq

/-- What one `verify_payment` call leaves behind: the Payment and its
owning Booking after the call, the email jobs it enqueued, and the HTTP
result it returned. -/
structure VerifyOutcome where
  payment : Payment
  booking : Booking
  emails : List EmailJob
  result : VerifyResult
  deriving Repr, DecidableEq

/-- `PaymentViewSet.verify_payment` (views.py lines 143 to 200) as a
transition on the Payment and its owning Booking.  The guard on a blank
`transaction_id` returns a 400 before the gateway is contacted, so `gw`
is consumed only past that guard. -/
def verify_payment (payment : Payment) (booking : Booking)
    (gw : GatewayResult) : VerifyOutcome :=
  if isBlank payment.transaction_id then
    ⟨payment, booking, [], .noTransactionId⟩
  else
    match gw with
    | .transportError e => ⟨payment, booking, [], .unavailable e⟩
    | .ok code body =>
      if code = 200 ∧ body.status = some "success" then
        let payment' := { payment with status := "completed" }
        let booking' := { booking with status := "confirmed" }
        ⟨payment', booking',
          [⟨booking'.id, booking'.userEmail, booking'.listingTitle⟩],
          .success⟩
      else
        ⟨{ payment with status := "failed" }, booking, [],
          .verificationFailed body⟩

/-- HTTP result of `PaymentViewSet.initiate_payment`.  `keyError` marks
the uncaught exception raised when the success branch reads
`response_data` at key `data` and that key is absent (only
`RequestException` is caught). -/
inductive InitiateResult where
  | success (payment_url : Option String)
  | failed (details : ChapaBody)
  | unavailable (details : String)
  | keyError
  deriving Repr, DecidableEq

/-- What one `initiate_payment` call leaves behind. -/
structure InitiateOutcome where
  payment : Payment
  booking : Booking
  result : InitiateResult
  deriving Repr, DecidableEq

/-- `PaymentViewSet.initiate_payment` (views.py lines 86 to 141) as a
transition on the Payment; the Booking is only read (payload fields),
never written, and is returned unchanged.  On the success branch the
gateway transaction id and checkout URL are stored and the response
carries `payment.payment_url`; the Payment status field is never
touched. -/
def initiate_payment (payment : Payment) (booking : Booking)
    (gw : GatewayResult) : InitiateOutcome :=
  match gw with
  | .transportError e => ⟨payment, booking, .unavailable e⟩
  | .ok code body =>
    if code = 200 ∧ body.status = some "success" then
      match body.data with
      | none => ⟨payment, booking, .keyError⟩
      | some d =>
        let payment' := { payment with
          transaction_id := d.transaction_id,
          payment_url := d.checkout_url }
        ⟨payment', booking, .success payment'.payment_url⟩
    else ⟨payment, booking, .failed body⟩

/-- The `callback_url` field of the initiate payload (views.py line 99):
`base` stands for `request.build_absolute_uri` of the root with the
trailing slash stripped. -/
def callback_url (base : String) (paymentId : Nat) : String :=
  base ++ "/api/payments/" ++ toString paymentId ++ "/verify/"

/-- The `return_url` field of the initiate payload (views.py line 100). -/
def return_url (base : String) (bookingId : Nat) : String :=
  base ++ "/bookings/" ++ toString bookingId ++ "/"

/-- Modelled from the spec: the route at which `verify_payment` is
actually reachable.  urls.py registers `PaymentViewSet` under the prefix
`payments`, and the spec (section 6) lists the exposed action route as
`POST /payments/{id}/verify_payment/`; the framework code generating the
route from the action decorator is not under `src/`. -/
def verify_payment_route (paymentId : Nat) : String :=
  "/payments/" ++ toString paymentId ++ "/verify_payment/"

/-- Modelled from the spec: the Payment model field defaults (models.py
is not under `src/`).  Per spec section 3 a newly created Payment has
status `pending`, a client-generated reference token, and no gateway
transaction identifier or checkout URL yet.  The values the create call
passes explicitly (booking, amount, currency: views.py lines 37 to 41
and 61 to 65) are arguments. -/
def newPayment (pid ref bid : Nat) (amount : Int) (currency : String) :
    Payment :=
  { id := pid, bookingId := bid, amount := amount, currency := currency,
    reference := ref, transaction_id := none, payment_url := none,
    status := "pending" }

/-- What `BookingViewSet.perform_create` leaves behind: the saved Booking,
the Payment rows it created, and the email jobs it enqueued. -/
structure CreateOutcome where
  booking : Booking
  createdPayments : List Payment
  emails : List EmailJob
  deriving Repr, DecidableEq

/-- `BookingViewSet.perform_create` (views.py lines 33 to 50): after the
serializer saves the Booking, create one Payment for it with the booking
total as amount and currency `ETB`, then enqueue the confirmation
email.  `pid` and `ref` stand for the database-assigned primary key and
generated reference of the new row. -/
def perform_create (booking : Booking) (pid ref : Nat) : CreateOutcome :=
  ⟨booking, [newPayment pid ref booking.id booking.total_price "ETB"],
    [⟨booking.id, booking.userEmail, booking.listingTitle⟩]⟩

/-- Result of the Django lookup
`Payment.objects.get(booking=booking, status=pending)`: the unique
match, `DoesNotExist`, or `MultipleObjectsReturned` (the view catches
only `DoesNotExist`). -/
inductive GetPending where
  | found (p : Payment)
  | doesNotExist
  | multipleReturned
  deriving Repr, DecidableEq

/-- The filter of the pending-payment lookup for one booking. -/
def isPendingFor (bid : Nat) (p : Payment) : Bool :=
  p.bookingId == bid && p.status == "pending"

/-- Django `.get` over the Payment table with the pending filter. -/
def getPendingPayment (ps : List Payment) (bid : Nat) : GetPending :=
  match ps.filter (isPendingFor bid) with
  | [] => .doesNotExist
  | [p] => .found p
  | _ :: _ :: _ => .multipleReturned

/-- The Payment table plus the primary key the database would assign to
the next created row. -/
structure PaymentTable where
  rows : List Payment
  nextId : Nat
  deriving Repr, DecidableEq

/-- Write-back of one saved Payment row, keyed on the primary key. -/
def saveRow (ps : List Payment) (p : Payment) : List Payment :=
  ps.map fun q => if q.id == p.id then p else q

/-- The table effect of one `initiate_payment` call: `payment.save()` runs
only on the gateway-success branch (views.py line 122); every other
branch leaves the table untouched. -/
def applyInitiate (rows : List Payment) (o : InitiateOutcome) :
    List Payment :=
  match o.result with
  | .success _ => saveRow rows o.payment
  | _ => rows

/-- What one `BookingViewSet.initiate_payment` call leaves behind: the
table after the call, the primary key of the Payment the call operated
on, the Booking (returned unchanged), and the delegated
`PaymentViewSet.initiate_payment` result.  `none` entries mark the
uncaught `MultipleObjectsReturned`. -/
structure BookingInitOutcome where
  table : PaymentTable
  paymentId : Option Nat
  booking : Booking
  result : Option InitiateResult
  deriving Repr, DecidableEq

/-- `BookingViewSet.initiate_payment` (views.py lines 52 to 73): look up
an existing pending Payment of the Booking; create one only when none
exists; then delegate to `PaymentViewSet.initiate_payment` on that
Payment. -/
def booking_initiate_payment (t : PaymentTable) (booking : Booking)
    (gw : GatewayResult) : BookingInitOutcome :=
  match getPendingPayment t.rows booking.id with
  | .found p =>
    let o := initiate_payment p booking gw
    ⟨⟨applyInitiate t.rows o, t.nextId⟩, some p.id, o.booking,
      some o.result⟩
  | .doesNotExist =>
    let p := newPayment t.nextId t.nextId booking.id booking.total_price
      "ETB"
    let o := initiate_payment p booking gw
    ⟨⟨applyInitiate (t.rows ++ [p]) o, t.nextId + 1⟩, some p.id,
      o.booking, some o.result⟩
  | .multipleReturned => ⟨t, none, booking, none⟩

/-- Number of pending Payment rows of one booking. -/
def pendingCount (ps : List Payment) (bid : Nat) : Nat :=
  ps.countP (isPendingFor bid)

/-- The spec invariant: at most one pending Payment open per Booking. -/
def AtMostOnePending (ps : List Payment) : Prop :=
  ∀ bid, pendingCount ps bid ≤ 1

/-- Well-formedness of the table: primary keys are pairwise distinct. -/
def UniqueIds (ps : List Payment) : Prop :=
  ps.Pairwise fun a b => a.id ≠ b.id

/-- The table effect of one `verify_payment` call: `payment.save()` runs
on both the success branch (views.py line 168) and the failure branch
(line 188); the guard and transport branches leave the table
untouched. -/
def applyVerify (rows : List Payment) (o : VerifyOutcome) :
    List Payment :=
  match o.result with
  | .success => saveRow rows o.payment
  | .verificationFailed _ => saveRow rows o.payment
  | _ => rows


/-- C1: verify on HTTP 200 with body status `success` completes the
Payment, confirms the Booking, enqueues exactly one confirmation email
and returns success. -/
theorem C1_verify_success (p : Payment) (b : Booking) (t : String)
    (body : ChapaBody) (ht : p.transaction_id = some t) (htne : t ≠ "")
    (hs : body.status = some "success") :
    (verify_payment p b (.ok 200 body)).payment.status = "completed" ∧
    (verify_payment p b (.ok 200 body)).booking.status = "confirmed" ∧
    (verify_payment p b (.ok 200 body)).emails
      = [⟨b.id, b.userEmail, b.listingTitle⟩] ∧
    (verify_payment p b (.ok 200 body)).result = .success := by
  have hblank : isBlank p.transaction_id = false := by
    simp [isBlank, ht, htne]
  simp [verify_payment, hblank, hs]

/-- Witness for C1 at a concrete Payment, Booking and gateway body. -/
theorem C1_verify_success_witness :
    (verify_payment
        ⟨1, 1, 400, "ETB", 1, some "tx_123", some "u", "pending"⟩
        ⟨1, "a@b.c", "A", "B", "Chalet", "2024-06-01", "2024-06-05", 400,
          "pending"⟩
        (.ok 200 ⟨some "success", none⟩)).payment.status = "completed" :=
  (C1_verify_success _ _ "tx_123" _ rfl (by decide) rfl).1

/-- C4: initiate on HTTP 200 with body status `success` and a data object
stores the transaction id and checkout URL on the Payment, leaves the
status `pending`, and returns success carrying the checkout URL. -/
theorem C4_initiate_success (p : Payment) (b : Booking)
    (tid url : String) (body : ChapaBody)
    (hs : body.status = some "success")
    (hd : body.data = some ⟨some tid, some url⟩)
    (hp : p.status = "pending") :
    (initiate_payment p b (.ok 200 body)).payment.transaction_id
      = some tid ∧
    (initiate_payment p b (.ok 200 body)).payment.payment_url
      = some url ∧
    (initiate_payment p b (.ok 200 body)).payment.status = "pending" ∧
    (initiate_payment p b (.ok 200 body)).result
      = .success (some url) := by
  simp [initiate_payment, hs, hd, hp]

/-- Witness for C4 at the concrete scenario of the spec. -/
theorem C4_initiate_success_witness :
    (initiate_payment
      ⟨1, 1, 400, "ETB", 1, none, none, "pending"⟩
      ⟨1, "a@b.c", "A", "B", "Chalet", "2024-06-01", "2024-06-05", 400,
        "pending"⟩
      (.ok 200
        ⟨some "success",
          some ⟨some "tx_123", some "https://pay.example/tx_123"⟩⟩)).payment.transaction_id
      = some "tx_123" :=
  (C4_initiate_success
    ⟨1, 1, 400, "ETB", 1, none, none, "pending"⟩
    ⟨1, "a@b.c", "A", "B", "Chalet", "2024-06-01", "2024-06-05", 400,
      "pending"⟩
    "tx_123" "https://pay.example/tx_123"
    ⟨some "success", some ⟨some "tx_123", some "https://pay.example/tx_123"⟩⟩
    rfl rfl rfl).1

/-- C5: verify on a non-success gateway response marks the Payment
`failed`, leaves the Booking untouched, enqueues nothing, and returns an
error carrying the gateway body. -/
theorem C5_verify_failure (p : Payment) (b : Booking) (t : String)
    (code : Nat) (body : ChapaBody)
    (ht : p.transaction_id = some t) (htne : t ≠ "")
    (hns : ¬ (code = 200 ∧ body.status = some "success")) :
    (verify_payment p b (.ok code body)).payment.status = "failed" ∧
    (verify_payment p b (.ok code body)).booking = b ∧
    (verify_payment p b (.ok code body)).emails = [] ∧
    (verify_payment p b (.ok code body)).result
      = .verificationFailed body := by
  have hblank : isBlank p.transaction_id = false := by
    simp [isBlank, ht, htne]
  simp [verify_payment, hblank, hns]

/-- Witness for C5 at a gateway body reporting `failed`. -/
theorem C5_verify_failure_witness :
    (verify_payment
        ⟨1, 1, 400, "ETB", 1, some "tx_123", some "u", "pending"⟩
        ⟨1, "a@b.c", "A", "B", "Chalet", "2024-06-01", "2024-06-05", 400,
          "pending"⟩
        (.ok 200 ⟨some "failed", none⟩)).payment.status = "failed" :=
  (C5_verify_failure _ _ "tx_123" 200 _ rfl (by decide) (by simp)).1

/-- C7: verify on a transport failure returns service-unavailable and
mutates neither the Payment nor the Booking. -/
theorem C7_verify_transport (p : Payment) (b : Booking) (t e : String)
    (ht : p.transaction_id = some t) (htne : t ≠ "") :
    verify_payment p b (.transportError e) = ⟨p, b, [], .unavailable e⟩ := by
  have hblank : isBlank p.transaction_id = false := by
    simp [isBlank, ht, htne]
  simp [verify_payment, hblank]

/-- Witness for C7 at a concrete Payment and transport error. -/
theorem C7_verify_transport_witness :
    verify_payment
        ⟨1, 1, 400, "ETB", 1, some "tx_123", some "u", "pending"⟩
        ⟨1, "a@b.c", "A", "B", "Chalet", "2024-06-01", "2024-06-05", 400,
          "pending"⟩
        (.transportError "timeout")
      = ⟨⟨1, 1, 400, "ETB", 1, some "tx_123", some "u", "pending"⟩,
          ⟨1, "a@b.c", "A", "B", "Chalet", "2024-06-01", "2024-06-05", 400,
            "pending"⟩, [], .unavailable "timeout"⟩ :=
  C7_verify_transport _ _ "tx_123" "timeout" rfl (by decide)

/-- C8: verify on a Payment with a blank transaction id returns the 400
precondition error, mutates nothing, and its outcome does not depend on
the gateway at all (the gateway is never contacted). -/
theorem C8_verify_precondition (p : Payment) (b : Booking)
    (hb : isBlank p.transaction_id = true) :
    ∀ gw : GatewayResult,
      verify_payment p b gw = ⟨p, b, [], .noTransactionId⟩ := by
  intro gw
  simp [verify_payment, hb]

/-- Witness for C8 at a Payment whose transaction id is absent. -/
theorem C8_verify_precondition_witness :
    verify_payment
        ⟨1, 1, 400, "ETB", 1, none, none, "pending"⟩
        ⟨1, "a@b.c", "A", "B", "Chalet", "2024-06-01", "2024-06-05", 400,
          "pending"⟩
        (.ok 200 ⟨some "success", none⟩)
      = ⟨⟨1, 1, 400, "ETB", 1, none, none, "pending"⟩,
          ⟨1, "a@b.c", "A", "B", "Chalet", "2024-06-01", "2024-06-05", 400,
            "pending"⟩, [], .noTransactionId⟩ :=
  C8_verify_precondition
    ⟨1, 1, 400, "ETB", 1, none, none, "pending"⟩
    ⟨1, "a@b.c", "A", "B", "Chalet", "2024-06-01", "2024-06-05", 400,
      "pending"⟩
    rfl (.ok 200 ⟨some "success", none⟩)

/-- C2: booking creation creates exactly one Payment, with the booking
total as amount, status `pending`, currency `ETB`, and enqueues the
confirmation email once. -/
theorem C2_create_booking (b : Booking) (pid ref : Nat) :
    (perform_create b pid ref).createdPayments.length = 1 ∧
    (∀ p ∈ (perform_create b pid ref).createdPayments,
      p.amount = b.total_price ∧ p.status = "pending" ∧
      p.currency = "ETB" ∧ p.bookingId = b.id) ∧
    (perform_create b pid ref).emails
      = [⟨b.id, b.userEmail, b.listingTitle⟩] := by
  refine ⟨rfl, ?_, rfl⟩
  intro p hp
  simp only [perform_create, List.mem_singleton] at hp
  subst hp
  exact ⟨rfl, rfl, rfl, rfl⟩

/-- Witness for C2 at a concrete Booking. -/
theorem C2_create_booking_witness :
    (perform_create
      ⟨1, "a@b.c", "A", "B", "Chalet", "2024-06-01", "2024-06-05", 400,
        "pending"⟩ 1 1).createdPayments.length = 1 :=
  (C2_create_booking
    ⟨1, "a@b.c", "A", "B", "Chalet", "2024-06-01", "2024-06-05", 400,
      "pending"⟩ 1 1).1

/-- C6 is refuted by the code: `verify_payment` has no guard on the
current Payment status, so a `completed` Payment that still carries its
transaction identifier is flipped to `failed` by a later verify call
whose gateway response is non-success — `completed` is not terminal. -/
theorem C6_completed_to_failed :
    (verify_payment
      ⟨1, 1, 400, "ETB", 1, some "tx_123",
        some "https://pay.example/tx_123", "completed"⟩
      ⟨1, "a@b.c", "A", "B", "Chalet", "2024-06-01", "2024-06-05", 400,
        "confirmed"⟩
      (.ok 200 ⟨some "failed", none⟩)).payment.status = "failed" := by
  decide

/-- C9 is refuted by the code: the callback URL built by initiate targets
the path `api/payments/{id}/verify/`, while `verify_payment` is exposed
at `/payments/{id}/verify_payment/`; the route path is not a suffix of
the callback URL, so the callback does not point at the verify
endpoint. -/
theorem C9_callback_mismatch :
    callback_url "https://example.com" 7
      = "https://example.com/api/payments/7/verify/" ∧
    verify_payment_route 7 = "/payments/7/verify_payment/" ∧
    ¬ (verify_payment_route 7).data <:+
        (callback_url "https://example.com" 7).data := by
  refine ⟨by decide, by decide, ?_⟩
  decide

/-- C10: no branch of `initiate_payment` writes any Booking field — the
Booking comes back unchanged from the payment-level action, from the
booking-level delegating action, and from booking creation; among the
embedded operations only `verify_payment` ever writes a Booking. -/
theorem C10_initiate_frames_booking :
    (∀ (p : Payment) (b : Booking) (gw : GatewayResult),
      (initiate_payment p b gw).booking = b) ∧
    (∀ (t : PaymentTable) (b : Booking) (gw : GatewayResult),
      (booking_initiate_payment t b gw).booking = b) ∧
    (∀ (b : Booking) (pid ref : Nat),
      (perform_create b pid ref).booking = b) := by
  have hinit : ∀ (p : Payment) (b : Booking) (gw : GatewayResult),
      (initiate_payment p b gw).booking = b := by
    intro p b gw
    cases gw with
    | transportError e => rfl
    | ok code body =>
      simp only [initiate_payment]
      split
      · cases hd : body.data <;> simp
      · rfl
  refine ⟨hinit, ?_, fun b pid ref => rfl⟩
  intro t b gw
  simp only [booking_initiate_payment]
  split <;> simp [hinit]

/-- Helper: in a table with pairwise-distinct keys, rows are identified
by their key. -/
theorem eq_of_mem_of_id_eq {ps : List Payment} (hids : UniqueIds ps)
    {p q : Payment} (hp : p ∈ ps) (hq : q ∈ ps) (hid : p.id = q.id) :
    p = q := by
  by_contra hne
  have hsym : Symmetric fun a b : Payment => a.id ≠ b.id :=
    fun a b hab h => hab h.symm
  exact List.Pairwise.forall hsym hids hp hq hne hid

/-- Helper: the pending filter only reads the booking key and the status
field. -/
theorem isPendingFor_congr {bid : Nat} {p q : Payment}
    (hbk : p.bookingId = q.bookingId) (hst : p.status = q.status) :
    isPendingFor bid p = isPendingFor bid q := by
  simp [isPendingFor, hbk, hst]

/-- Helper: writing a row back never changes the key stored at any
position. -/
theorem saveRow_entry_id (p' q : Payment) :
    (if q.id == p'.id then p' else q).id = q.id := by
  by_cases h : q.id = p'.id
  · simp [h]
  · simp [h]

/-- Helper: writing back a row that keeps its key, booking reference and
status leaves pending counts, key distinctness, length and the key set
unchanged, and rewrites a singleton pending filter in place. -/
theorem saveRow_spec (rows : List Payment) (p0 p' : Payment)
    (hids : UniqueIds rows) (hmem : p0 ∈ rows) (hid : p'.id = p0.id)
    (hbk : p'.bookingId = p0.bookingId) (hst : p'.status = p0.status) :
    (∀ bid, pendingCount (saveRow rows p') bid = pendingCount rows bid) ∧
    UniqueIds (saveRow rows p') ∧
    (saveRow rows p').length = rows.length ∧
    (∀ q ∈ saveRow rows p', ∃ q0 ∈ rows, q.id = q0.id) ∧
    ∀ bid, rows.filter (isPendingFor bid) = [p0] →
      (saveRow rows p').filter (isPendingFor bid) = [p'] := by
  have hpt : ∀ bid, ∀ q ∈ rows,
      isPendingFor bid (if q.id == p'.id then p' else q)
        = isPendingFor bid q := by
    intro bid q hq
    by_cases h : q.id = p'.id
    · have hq0 : q = p0 :=
        eq_of_mem_of_id_eq hids hq hmem (h.trans hid)
      subst hq0
      simp only [h, beq_self_eq_true, if_true]
      exact isPendingFor_congr hbk hst
    · simp [h]
  refine ⟨?_, ?_, ?_, ?_, ?_⟩
  · intro bid
    unfold saveRow pendingCount
    rw [List.countP_map]
    exact List.countP_congr fun x hx => by
      simp only [Function.comp_apply, hpt bid x hx]
  · exact List.Pairwise.map _
      (fun a b hab => by
        rw [saveRow_entry_id p' a, saveRow_entry_id p' b]; exact hab)
      hids
  · exact List.length_map rows _
  · intro q hq
    obtain ⟨q0, hq0, hq0e⟩ := List.mem_map.mp hq
    exact ⟨q0, hq0, hq0e ▸ saveRow_entry_id p' q0⟩
  · intro bid hfil
    unfold saveRow
    rw [List.filter_map]
    have : rows.filter
        ((isPendingFor bid) ∘ fun q => if q.id == p'.id then p' else q)
          = rows.filter (isPendingFor bid) :=
      List.filter_congr fun x hx => by
        simp only [Function.comp_apply, hpt bid x hx]
    rw [this, hfil]
    simp [hid]

/-- Helper: the table effect of one delegated initiate call on a Payment
row is either nothing, or a write-back that only adds the gateway
transaction id and checkout URL. -/
theorem applyInitiate_eq (rows : List Payment) (p0 : Payment)
    (b : Booking) (gw : GatewayResult) :
    applyInitiate rows (initiate_payment p0 b gw) = rows ∨
    ∃ d : ChapaData,
      applyInitiate rows (initiate_payment p0 b gw)
        = saveRow rows
            { p0 with
              transaction_id := d.transaction_id,
              payment_url := d.checkout_url } := by
  cases gw with
  | transportError e => exact Or.inl rfl
  | ok code body =>
    by_cases hcond : code = 200 ∧ body.status = some "success"
    · cases hdata : body.data with
      | none =>
        exact Or.inl (by simp [initiate_payment, hcond, hdata, applyInitiate])
      | some d =>
        exact Or.inr ⟨d, by simp [initiate_payment, hcond, hdata, applyInitiate]⟩
    · exact Or.inl (by simp [initiate_payment, hcond, applyInitiate])

/-- Helper: the table effect of one delegated initiate call preserves
pending counts, key distinctness, length and the key set, and keeps a
singleton pending filter singleton with the same key. -/
theorem applyInitiate_spec (rows : List Payment) (p0 : Payment)
    (b : Booking) (gw : GatewayResult) (hids : UniqueIds rows)
    (hmem : p0 ∈ rows) :
    (∀ bid, pendingCount (applyInitiate rows (initiate_payment p0 b gw))
        bid = pendingCount rows bid) ∧
    UniqueIds (applyInitiate rows (initiate_payment p0 b gw)) ∧
    (applyInitiate rows (initiate_payment p0 b gw)).length
      = rows.length ∧
    (∀ q ∈ applyInitiate rows (initiate_payment p0 b gw),
        ∃ q0 ∈ rows, q.id = q0.id) ∧
    ∀ bid, rows.filter (isPendingFor bid) = [p0] →
      ∃ p', (applyInitiate rows (initiate_payment p0 b gw)).filter
          (isPendingFor bid) = [p'] ∧ p'.id = p0.id := by
  rcases applyInitiate_eq rows p0 b gw with h | ⟨d, h⟩
  · rw [h]
    exact ⟨fun bid => rfl, hids, rfl, fun q hq => ⟨q, hq, rfl⟩,
      fun bid hfil => ⟨p0, hfil, rfl⟩⟩
  · rw [h]
    obtain ⟨hcnt, hu, hlen, hkeys, hfil⟩ :=
      saveRow_spec rows p0
        { p0 with
          transaction_id := d.transaction_id,
          payment_url := d.checkout_url }
        hids hmem rfl rfl rfl
    exact ⟨hcnt, hu, hlen, hkeys,
      fun bid hf => ⟨_, hfil bid hf, rfl⟩⟩

/-- Helper: a `found` lookup result means the pending filter is exactly
that singleton. -/
theorem filter_of_found {ps : List Payment} {bid : Nat} {p : Payment}
    (h : getPendingPayment ps bid = .found p) :
    ps.filter (isPendingFor bid) = [p] := by
  unfold getPendingPayment at h
  revert h
  cases hf : ps.filter (isPendingFor bid) with
  | nil => intro h; cases h
  | cons a l =>
    cases l with
    | nil => intro h; cases h; rfl
    | cons a2 l2 => intro h; cases h

/-- Helper: a `DoesNotExist` lookup result means the pending filter is
empty. -/
theorem filter_of_doesNotExist {ps : List Payment} {bid : Nat}
    (h : getPendingPayment ps bid = .doesNotExist) :
    ps.filter (isPendingFor bid) = [] := by
  unfold getPendingPayment at h
  revert h
  cases hf : ps.filter (isPendingFor bid) with
  | nil => intro h; rfl
  | cons a l =>
    cases l with
    | nil => intro h; cases h
    | cons a2 l2 => intro h; cases h

/-- Helper: a singleton pending filter makes the lookup find that row. -/
theorem getPendingPayment_of_filter {ps : List Payment} {bid : Nat}
    {p : Payment} (h : ps.filter (isPendingFor bid) = [p]) :
    getPendingPayment ps bid = .found p := by
  unfold getPendingPayment
  rw [h]

/-- Helper: the invariant rules out `MultipleObjectsReturned`. -/
theorem not_multiple {ps : List Payment} {bid : Nat}
    (hinv : AtMostOnePending ps) :
    getPendingPayment ps bid ≠ .multipleReturned := by
  intro h
  unfold getPendingPayment at h
  revert h
  cases hf : ps.filter (isPendingFor bid) with
  | nil => intro h; cases h
  | cons a l =>
    cases l with
    | nil => intro h; cases h
    | cons a2 l2 =>
      intro h
      have h2 := hinv bid
      rw [pendingCount, List.countP_eq_length_filter, hf] at h2
      simp [List.length_cons] at h2

/-- Helper: one booking-level initiate call under the invariant resolves
a pending Payment of the Booking (creating one only when none exists),
preserves the invariant, key distinctness and the key bound, leaves
exactly one pending row for the Booking carrying the resolved key, and
grows the table only in the creation case. -/
theorem booking_initiate_step (t : PaymentTable) (b : Booking)
    (gw : GatewayResult) (hinv : AtMostOnePending t.rows)
    (hids : UniqueIds t.rows)
    (hfresh : ∀ q ∈ t.rows, q.id < t.nextId) :
    ∃ (pid : Nat) (p' : Payment),
      (booking_initiate_payment t b gw).paymentId = some pid ∧
      p'.id = pid ∧
      (booking_initiate_payment t b gw).table.rows.filter
          (isPendingFor b.id) = [p'] ∧
      AtMostOnePending (booking_initiate_payment t b gw).table.rows ∧
      UniqueIds (booking_initiate_payment t b gw).table.rows ∧
      (∀ q ∈ (booking_initiate_payment t b gw).table.rows,
          q.id < (booking_initiate_payment t b gw).table.nextId) ∧
      (getPendingPayment t.rows b.id = .doesNotExist →
        (booking_initiate_payment t b gw).table.rows.length
          = t.rows.length + 1) ∧
      (∀ p0, getPendingPayment t.rows b.id = .found p0 →
        pid = p0.id ∧
        (booking_initiate_payment t b gw).table.rows.length
          = t.rows.length) := by
  cases hget : getPendingPayment t.rows b.id with
  | multipleReturned => exact absurd hget (not_multiple hinv)
  | found p0 =>
    have hfil := filter_of_found hget
    have hmem : p0 ∈ t.rows :=
      List.mem_of_mem_filter (hfil ▸ List.mem_singleton_self p0)
    obtain ⟨hcnt, hu, hlen, hkeys, hfe⟩ :=
      applyInitiate_spec t.rows p0 b gw hids hmem
    obtain ⟨p', hp'fil, hp'id⟩ := hfe b.id hfil
    refine ⟨p0.id, p', ?_, hp'id, ?_, ?_, ?_, ?_, ?_, ?_⟩
    · simp [booking_initiate_payment, hget]
    · simp only [booking_initiate_payment, hget]
      exact hp'fil
    · simp only [booking_initiate_payment, hget]
      intro bid
      rw [hcnt bid]
      exact hinv bid
    · simp only [booking_initiate_payment, hget]
      exact hu
    · simp only [booking_initiate_payment, hget]
      intro q hq
      obtain ⟨q0, hq0, hqe⟩ := hkeys q hq
      exact hqe ▸ hfresh q0 hq0
    · intro h
      cases h
    · intro p1 h1
      cases h1
      refine ⟨rfl, ?_⟩
      simp only [booking_initiate_payment, hget]
      exact hlen
  | doesNotExist =>
    have hfilnil := filter_of_doesNotExist hget
    have hpend : isPendingFor b.id
        (newPayment t.nextId t.nextId b.id b.total_price "ETB") = true := by
      simp [isPendingFor, newPayment]
    have hids0 : UniqueIds (t.rows ++
        [newPayment t.nextId t.nextId b.id b.total_price "ETB"]) := by
      rw [UniqueIds, List.pairwise_append]
      refine ⟨hids, ?_, ?_⟩
      · simp
      · intro a ha b2 hb2
        rw [List.mem_singleton] at hb2
        subst hb2
        exact Nat.ne_of_lt (hfresh a ha)
    have hmem0 : newPayment t.nextId t.nextId b.id b.total_price "ETB"
        ∈ t.rows ++ [newPayment t.nextId t.nextId b.id b.total_price
          "ETB"] :=
      List.mem_append_right _ (List.mem_singleton_self _)
    have hfil0 : (t.rows ++ [newPayment t.nextId t.nextId b.id
          b.total_price "ETB"]).filter (isPendingFor b.id)
        = [newPayment t.nextId t.nextId b.id b.total_price "ETB"] := by
      rw [List.filter_append, hfilnil]
      simp [hpend]
    have hinv0 : AtMostOnePending (t.rows ++
        [newPayment t.nextId t.nextId b.id b.total_price "ETB"]) := by
      intro bid
      rw [pendingCount, List.countP_append]
      by_cases hb : bid = b.id
      · rw [hb]
        have h0 : t.rows.countP (isPendingFor b.id) = 0 := by
          rw [List.countP_eq_length_filter, hfilnil]
          rfl
        have h1 : List.countP (isPendingFor b.id)
            [newPayment t.nextId t.nextId b.id b.total_price "ETB"]
              = 1 := by
          rw [List.countP_cons]
          simp [hpend]
        rw [h0, h1]
      · have h1 : List.countP (isPendingFor bid)
            [newPayment t.nextId t.nextId b.id b.total_price "ETB"]
              = 0 := by
          have hnp : isPendingFor bid
              (newPayment t.nextId t.nextId b.id b.total_price "ETB")
                = false := by
            simp [isPendingFor, newPayment]
            exact fun h => hb h.symm
          rw [List.countP_cons]
          simp [hnp]
        rw [h1]
        simpa using hinv bid
    have hfresh0 : ∀ q ∈ t.rows ++ [newPayment t.nextId t.nextId b.id
        b.total_price "ETB"], q.id < t.nextId + 1 := by
      intro q hq
      rcases List.mem_append.mp hq with h | h
      · exact Nat.lt_succ_of_lt (hfresh q h)
      · rw [List.mem_singleton] at h
        subst h
        exact Nat.lt_succ_self _
    obtain ⟨hcnt, hu, hlen, hkeys, hfe⟩ :=
      applyInitiate_spec
        (t.rows ++ [newPayment t.nextId t.nextId b.id b.total_price
          "ETB"])
        (newPayment t.nextId t.nextId b.id b.total_price "ETB") b gw
        hids0 hmem0
    obtain ⟨p', hp'fil, hp'id⟩ := hfe b.id hfil0
    refine ⟨t.nextId, p', ?_, hp'id, ?_, ?_, ?_, ?_, ?_, ?_⟩
    · simp [booking_initiate_payment, hget, newPayment]
    · simp only [booking_initiate_payment, hget]
      exact hp'fil
    · simp only [booking_initiate_payment, hget]
      intro bid
      rw [hcnt bid]
      exact hinv0 bid
    · simp only [booking_initiate_payment, hget]
      exact hu
    · simp only [booking_initiate_payment, hget]
      intro q hq
      obtain ⟨q0, hq0, hqe⟩ := hkeys q hq
      exact hqe ▸ hfresh0 q0 hq0
    · intro _
      simp only [booking_initiate_payment, hget]
      rw [hlen]
      simp [List.length_append]
    · intro p1 h1
      cases h1

/-- Helper: write-back of a row whose pending classification only shrinks
never increases any pending count. -/
theorem saveRow_countP_le (rows : List Payment) (p0 p' : Payment)
    (hids : UniqueIds rows) (hmem : p0 ∈ rows) (hid : p'.id = p0.id)
    (hnp : ∀ bid, isPendingFor bid p' = true → isPendingFor bid p0 = true)
    (bid : Nat) :
    pendingCount (saveRow rows p') bid ≤ pendingCount rows bid := by
  unfold saveRow pendingCount
  rw [List.countP_map]
  apply List.countP_mono_left
  intro q hq hpred
  by_cases h : q.id = p'.id
  · have hq0 : q = p0 := eq_of_mem_of_id_eq hids hq hmem (h.trans hid)
    subst hq0
    simp only [Function.comp_apply, hid, beq_self_eq_true, if_true]
      at hpred
    exact hnp bid hpred
  · simpa [Function.comp_apply, h] using hpred

/-- Helper: the table effect of one verify call is either nothing or a
write-back that only sets the status to `completed` or `failed`. -/
theorem applyVerify_eq (rows : List Payment) (p : Payment) (b' : Booking)
    (gw : GatewayResult) :
    applyVerify rows (verify_payment p b' gw) = rows ∨
    ∃ st, (st = "completed" ∨ st = "failed") ∧
      applyVerify rows (verify_payment p b' gw)
        = saveRow rows { p with status := st } := by
  by_cases hb : isBlank p.transaction_id
  · left
    simp [verify_payment, hb, applyVerify]
  · cases gw with
    | transportError e =>
      left
      simp [verify_payment, hb, applyVerify]
    | ok code body =>
      by_cases hcond : code = 200 ∧ body.status = some "success"
      · exact Or.inr ⟨"completed", Or.inl rfl, by
          simp [verify_payment, hb, hcond, applyVerify]⟩
      · exact Or.inr ⟨"failed", Or.inr rfl, by
          simp [verify_payment, hb, hcond, applyVerify]⟩

/-- Helper: the verify write-back preserves the invariant. -/
theorem applyVerify_pending (rows : List Payment) (p : Payment)
    (b' : Booking) (gw : GatewayResult) (hids : UniqueIds rows)
    (hmem : p ∈ rows) (hinv : AtMostOnePending rows) :
    AtMostOnePending (applyVerify rows (verify_payment p b' gw)) := by
  intro bid
  rcases applyVerify_eq rows p b' gw with h | ⟨st, hst, h⟩
  · rw [h]
    exact hinv bid
  · rw [h]
    refine le_trans (saveRow_countP_le rows p { p with status := st }
      hids hmem rfl ?_ bid) (hinv bid)
    intro bid2 hp'
    exfalso
    rcases hst with h1 | h1 <;> subst h1 <;>
      simp [isPendingFor] at hp'

/-- C3: under the invariant (at most one pending Payment per Booking,
distinct keys, fresh next key), booking-level initiate preserves the
invariant and reuses the pending Payment: two successive calls before
verification resolve the same Payment key and the second call creates no
row; the invariant is also preserved by booking creation with a fresh
Booking and by the verify write-back. -/
theorem C3_pending_payment_unique (t : PaymentTable) (b : Booking)
    (gw1 gw2 : GatewayResult) (hinv : AtMostOnePending t.rows)
    (hids : UniqueIds t.rows)
    (hfresh : ∀ q ∈ t.rows, q.id < t.nextId) :
    AtMostOnePending (booking_initiate_payment t b gw1).table.rows ∧
    AtMostOnePending (booking_initiate_payment
        (booking_initiate_payment t b gw1).table b gw2).table.rows ∧
    (booking_initiate_payment t b gw1).paymentId.isSome ∧
    (booking_initiate_payment (booking_initiate_payment t b gw1).table b
        gw2).paymentId = (booking_initiate_payment t b gw1).paymentId ∧
    (booking_initiate_payment (booking_initiate_payment t b gw1).table b
        gw2).table.rows.length
      = (booking_initiate_payment t b gw1).table.rows.length ∧
    (∀ (bNew : Booking) (pid ref : Nat),
        (∀ q ∈ t.rows, q.bookingId ≠ bNew.id) →
        AtMostOnePending (t.rows ++
          (perform_create bNew pid ref).createdPayments)) ∧
    (∀ (p : Payment) (b' : Booking) (gw : GatewayResult), p ∈ t.rows →
        AtMostOnePending (applyVerify t.rows (verify_payment p b' gw)))
    := by
  obtain ⟨pid1, p1, hpid1, hp1id, hfil1, hinv1, hids1, hfresh1, hc1, hc2⟩ :=
    booking_initiate_step t b gw1 hinv hids hfresh
  have hget2 : getPendingPayment
      (booking_initiate_payment t b gw1).table.rows b.id = .found p1 :=
    getPendingPayment_of_filter hfil1
  obtain ⟨pid2, p2, hpid2, hp2id, hfil2, hinv2, hids2, hfresh2, hd1, hfound2⟩
      := booking_initiate_step (booking_initiate_payment t b gw1).table b
        gw2 hinv1 hids1 hfresh1
  obtain ⟨hpid2eq, hlen2⟩ := hfound2 p1 hget2
  refine ⟨hinv1, hinv2, ?_, ?_, hlen2, ?_, ?_⟩
  · rw [hpid1]
    rfl
  · rw [hpid2, hpid1, hpid2eq, hp1id]
  · intro bNew pid ref hfr bid
    have hcp : (perform_create bNew pid ref).createdPayments
        = [newPayment pid ref bNew.id bNew.total_price "ETB"] := rfl
    rw [pendingCount, hcp, List.countP_append]
    by_cases hb : bid = bNew.id
    · have h0 : t.rows.countP (isPendingFor bid) = 0 := by
        rw [List.countP_eq_zero]
        intro a ha hpa
        simp only [isPendingFor, Bool.and_eq_true, beq_iff_eq] at hpa
        exact hfr a ha (hpa.1.trans hb)
      rw [h0, Nat.zero_add]
      exact le_trans (List.countP_le_length (isPendingFor bid)) (by simp)
    · have h1 : List.countP (isPendingFor bid)
          [newPayment pid ref bNew.id bNew.total_price "ETB"] = 0 := by
        rw [List.countP_eq_zero]
        intro a ha hpa
        rw [List.mem_singleton] at ha
        subst ha
        simp only [isPendingFor, newPayment, Bool.and_eq_true,
          beq_iff_eq] at hpa
        exact hb hpa.1.symm
      rw [h1]
      simpa using hinv bid
  · intro p b' gw hmem
    exact applyVerify_pending t.rows p b' gw hids hmem hinv

/-- Witness for C3 at the empty table and a concrete Booking: the second
call resolves the same Payment as the first. -/
theorem C3_pending_payment_unique_witness :
    (booking_initiate_payment
        (booking_initiate_payment ⟨[], 5⟩
          ⟨1, "a@b.c", "A", "B", "Chalet", "2024-06-01", "2024-06-05",
            400, "pending"⟩ (.transportError "down")).table
        ⟨1, "a@b.c", "A", "B", "Chalet", "2024-06-01", "2024-06-05",
          400, "pending"⟩ (.transportError "down")).paymentId
      = (booking_initiate_payment ⟨[], 5⟩
          ⟨1, "a@b.c", "A", "B", "Chalet", "2024-06-01", "2024-06-05",
            400, "pending"⟩ (.transportError "down")).paymentId :=
  (C3_pending_payment_unique ⟨[], 5⟩
    ⟨1, "a@b.c", "A", "B", "Chalet", "2024-06-01", "2024-06-05", 400,
      "pending"⟩ (.transportError "down") (.transportError "down")
    (fun _ => Nat.zero_le 1) List.Pairwise.nil (by simp)).2.2.2.1
